import Mathlib

/-!
Shallow embedding of `qrequest.go` from the `quest` repository, a fluent HTTP
request builder. Pure Go functions become Lean functions; the mutation of the
`Qrequest` struct becomes explicit state passing (each method returns the
updated state). The HTTP client is a parameter (`Transport`), a single
blocking send returning a response or a transport error. A Go nil-pointer
dereference panic is modelled as an `Option` result being `none`.
-/

/-- HTTP methods, from the external go-libs/methods package the source imports. -/
inductive Method where
  | OPTIONS
  | GET
  | HEAD
  | POST
  | PUT
  | PATCH
  | DELETE
  | TRACE
  | CONNECT
deriving DecidableEq, Repr

/-- The `Method.String()` method of the methods package. -/
def Method.str : Method → String
  | .OPTIONS => "OPTIONS"
  | .GET => "GET"
  | .HEAD => "HEAD"
  | .POST => "POST"
  | .PUT => "PUT"
  | .PATCH => "PATCH"
  | .DELETE => "DELETE"
  | .TRACE => "TRACE"
  | .CONNECT => "CONNECT"

/-- An `http.Header` as the list of (key, value) pairs. The source only ever
uses the literal key "Content-Type", which is already in MIME canonical form,
so Go header-key canonicalization is the identity on every key that occurs. -/
abbrev Header := List (String × String)

/-- `http.Header.Set`: replaces any existing entries for the key. -/
def headerSet (h : Header) (k v : String) : Header :=
  (k, v) :: h.filter (fun p => !(p.1 == k))

/-- `http.Header.Get`: the first value stored for the key, or "" when absent. -/
def headerGet (h : Header) (k : String) : String :=
  match h.find? (fun p => p.1 == k) with
  | some p => p.2
  | none => ""

/-- Byte strings (`[]byte`, and the contents of a `*bytes.Buffer` or reader)
as lists of byte values. -/
abbrev Bytes := List Nat

/-- The UTF-8 bytes of a Go string (`len(s)` in Go is the UTF-8 byte count). -/
def strBytes (s : String) : Bytes :=
  s.toUTF8.toList.map (fun b => b.toNat)

/-- An `http.Request` restricted to the fields `Do` assigns: method string,
header map, optional body and its declared content length. -/
structure HttpRequest where
  method : String
  header : Header
  body : Option Bytes
  contentLength : Int
deriving DecidableEq, Repr

/-- An `http.Response` restricted to the fields the source reads: the status
code and the body bytes (the body stream is fully drained into a buffer). -/
structure HttpResponse where
  statusCode : Int
  body : Bytes
deriving DecidableEq, Repr

/-- The HTTP client collaborator behind `http.Client.Do`: one blocking send
returning a response or a transport error (errors modelled as strings). -/
abbrev Transport := HttpRequest → Except String HttpResponse

/-- The `Qrequest` builder struct. `Body` is the byte content behind the
`io.ReadCloser` (none = nil); `Buffer` is the `*bytes.Buffer` response cache
(none = nil pointer); `err` is the sticky error field. `dispatchCount` is a
ghost counter of transport sends (the mock-transport call counter used to
observe dispatches); it is not a field of the Go struct and no operation
reads it. The `Url`, `Uri` and `client` fields are omitted: no claim and no
modelled operation reads them (the URL is only forwarded verbatim). -/
structure Qrequest where
  Method : Method
  Header : Header
  Body : Option Bytes
  Length : Int
  isBodyClosed : Bool
  Buffer : Option Bytes
  req : Option HttpRequest
  res : Option HttpResponse
  err : Option String
  dispatchCount : Nat
deriving DecidableEq, Repr

/-- A concrete zero-valued builder with the given method, as produced by the
package constructors: empty header map, no body, nothing dispatched yet. -/
def mkQrequest (m : Method) : Qrequest :=
  { Method := m, Header := [], Body := none, Length := 0, isBodyClosed := false,
    Buffer := none, req := none, res := none, err := none, dispatchCount := 0 }

/-- `packBodyByString`: a NopCloser over a fresh string buffer and the byte
length of the string; the reader is never nil. -/
def packBodyByString (s : String) : Option Bytes × Int :=
  (some (strBytes s), ((strBytes s).length : Int))

/-- `packBodyByBytes`. -/
def packBodyByBytes (b : Bytes) : Option Bytes × Int :=
  (some b, (b.length : Int))

/-- `packBodyByBytesBuffer`: adopts the buffer, length from `Len()`. -/
def packBodyByBytesBuffer (b : Bytes) : Option Bytes × Int :=
  (some b, (b.length : Int))

/-- `packBodyByBytesReader`: adopts the reader, length from `Len()`. -/
def packBodyByBytesReader (b : Bytes) : Option Bytes × Int :=
  (some b, (b.length : Int))

/-- `packBodyByStringsReader`: adopts the reader, length from `Len()`. -/
def packBodyByStringsReader (s : String) : Option Bytes × Int :=
  (some (strBytes s), ((strBytes s).length : Int))

/-- The runtime shapes the `Parameters` type switch dispatches on. A
`url.Values` value is carried as the string its `Encode` method produces
(net/url is an external collaborator); buffers and readers are carried as
their byte or string contents; the default case carries the outcome of
`json.Marshal` on the value (the JSON codec is an external collaborator whose
marshaling may fail). -/
inductive ParamData where
  | urlValues (encoded : String)
  | str (s : String)
  | bytes (b : Bytes)
  | bytesBuffer (b : Bytes)
  | bytesReader (b : Bytes)
  | stringsReader (s : String)
  | other (marshal : Except String Bytes)

/-- `encodesParametersInURL`: true exactly for GET, HEAD and DELETE. -/
def encodesParametersInURL : Method → Bool
  | .GET => true
  | .HEAD => true
  | .DELETE => true
  | _ => false

/-- The tail of `Parameters`: `if body != nil { r.Body = body; r.Length = length }`. -/
def Qrequest.setPackedBody (r : Qrequest) (p : Option Bytes × Int) : Qrequest :=
  match p.1 with
  | some body => { r with Body := some body, Length := p.2 }
  | none => r

/-- `Qrequest.Parameters`: no-op when the method encodes parameters in the
URL; otherwise packs the body according to the runtime shape of the data; in
the default (JSON) case a marshaling failure stores the error in the sticky
`err` field and returns early, leaving the body and length unchanged. -/
def Qrequest.Parameters (data : ParamData) (r : Qrequest) : Qrequest :=
  if encodesParametersInURL r.Method then r
  else
    match data with
    | .urlValues enc => r.setPackedBody (packBodyByString enc)
    | .str s => r.setPackedBody (packBodyByString s)
    | .bytes b => r.setPackedBody (packBodyByBytes b)
    | .bytesBuffer b => r.setPackedBody (packBodyByBytesBuffer b)
    | .bytesReader b => r.setPackedBody (packBodyByBytesReader b)
    | .stringsReader s => r.setPackedBody (packBodyByStringsReader s)
    | .other (.error e) => { r with err := some e }
    | .other (.ok b) => r.setPackedBody (packBodyByBytes b)

/-- `strings.ToUpper` restricted to ASCII case mapping; every string the
source compares against ("JSON", header names, media types) is ASCII. -/
def goToUpper (s : String) : String :=
  String.mk (s.data.map Char.toUpper)

/-- `Qrequest.Encoding`: uppercases the name, rewrites the literal "JSON" to
"application/json", and stores a non-empty result in the Content-Type header. -/
def Qrequest.Encoding (t : String) (r : Qrequest) : Qrequest :=
  let t1 := goToUpper t
  let t2 := if t1 = "JSON" then "application/json" else t1
  if t2 ≠ "" then { r with Header := headerSet r.Header "Content-Type" t2 } else r

/-- `Qrequest.Do`: builds the transport request from the accumulated method,
header and body, defaulting Content-Type to application/x-www-form-urlencoded
when unset (`r.req.Header` aliases `r.Header` in Go, so the default lands in
both), sends it, and on success caches the response and its drained body
buffer; on transport failure returns a nil buffer and the error without
storing either the error or any response. -/
def Qrequest.Do (t : Transport) (r : Qrequest) : Qrequest × (Option Bytes × Option String) :=
  let header :=
    if headerGet r.Header "Content-Type" = "" then
      headerSet r.Header "Content-Type" "application/x-www-form-urlencoded"
    else r.Header
  let req : HttpRequest :=
    { method := r.Method.str, header := header, body := r.Body,
      contentLength := match r.Body with | some _ => r.Length | none => 0 }
  let r1 : Qrequest :=
    { r with Header := header, req := some req, dispatchCount := r.dispatchCount + 1 }
  match t req with
  | .error e => (r1, (none, some e))
  | .ok res =>
    (({ r1 with res := some res, Buffer := some res.body } : Qrequest),
     (some res.body, none))

/-- `Qrequest.response`: the memoizing core every terminal accessor calls.
A sticky error short-circuits with the cached buffer; an already-dispatched
builder returns the cached buffer with no error; otherwise it marks the
builder dispatched and performs `Do`. -/
def Qrequest.response (t : Transport) (r : Qrequest) : Qrequest × (Option Bytes × Option String) :=
  if r.err.isSome then (r, (r.Buffer, r.err))
  else if r.isBodyClosed then (r, (r.Buffer, none))
  else Qrequest.Do t { r with isBodyClosed := true }

/-- The arguments an accessor hands to its callback: the request and response
pointers and the sticky or dispatch error, plus the typed payload. -/
structure CallbackOut (β : Type) where
  req : Option HttpRequest
  res : Option HttpResponse
  payload : β
  err : Option String
deriving DecidableEq, Repr

/-- `Qrequest.Response`: hands the raw buffer pointer (possibly nil) to the
callback. -/
def Qrequest.Response (t : Transport) (r : Qrequest) :
    Qrequest × CallbackOut (Option Bytes) :=
  let p := r.response t
  (p.1, { req := p.1.req, res := p.1.res, payload := p.2.1, err := p.2.2 })

/-- `Qrequest.ResponseBytes`: calls `body.Bytes()` on the returned buffer; an
overall result of `none` is the nil-pointer panic raised when the buffer is
nil, in which case the callback is never invoked. -/
def Qrequest.ResponseBytes (t : Transport) (r : Qrequest) :
    Qrequest × Option (CallbackOut Bytes) :=
  let p := r.response t
  match p.2.1 with
  | none => (p.1, none)
  | some b => (p.1, some { req := p.1.req, res := p.1.res, payload := b, err := p.2.2 })

/-- `Qrequest.ResponseString`: calls `body.String()` on the returned buffer;
the string payload is carried as its bytes. Unlike `Bytes()`, the method
`bytes.Buffer.String` has an explicit nil-receiver check and returns the
string "<nil>" for a nil buffer, so this accessor never panics and always
invokes its callback. -/
def Qrequest.ResponseString (t : Transport) (r : Qrequest) :
    Qrequest × CallbackOut Bytes :=
  let p := r.response t
  match p.2.1 with
  | none => (p.1, { req := p.1.req, res := p.1.res, payload := strBytes "<nil>", err := p.2.2 })
  | some b => (p.1, { req := p.1.req, res := p.1.res, payload := b, err := p.2.2 })

/-- `Qrequest.ResponseJSON`: on a response error the callback receives a nil
map and that error; otherwise `decode` is `json.Unmarshal` run on the buffer
bytes against a fresh string-keyed map, yielding the final map value and the
optional decode error, both handed to the callback. An overall result of
`none` is the nil-pointer panic from `body.Bytes()` on a nil buffer. -/
def Qrequest.ResponseJSON {J : Type} (t : Transport) (decode : Bytes → J × Option String)
    (r : Qrequest) : Qrequest × Option (CallbackOut (Option J)) :=
  let p := r.response t
  match p.2.2 with
  | some e => (p.1, some { req := p.1.req, res := p.1.res, payload := none, err := some e })
  | none =>
    match p.2.1 with
    | none => (p.1, none)
    | some b =>
      (p.1, some { req := p.1.req, res := p.1.res, payload := some (decode b).1,
                   err := (decode b).2 })

/-- `Qrequest.validateStatusCode`: reads `r.res.StatusCode`; `none` is the
nil-pointer panic raised when no response was ever stored. With a non-empty
argument list the code must match one of the arguments exactly; with an empty
list it must lie in [200, 300). -/
def Qrequest.validateStatusCode (statusCodes : List Int) (r : Qrequest) : Option Bool :=
  match r.res with
  | none => none
  | some res =>
    let statusCode := res.statusCode
    if statusCodes.length > 0 then
      some (statusCodes.contains statusCode)
    else if 200 ≤ statusCode ∧ statusCode < 300 then
      some true
    else
      some false

/-- `Qrequest.ValidateStatusCode`: forces `response()`, then on a failed
check stores a descriptive error naming the offending status code in the
sticky `err` field. `none` is the nil-pointer panic from reading the status
code of a nil response. -/
def Qrequest.ValidateStatusCode (t : Transport) (statusCodes : List Int)
    (r : Qrequest) : Option Qrequest :=
  let r1 := (r.response t).1
  match r1.validateStatusCode statusCodes with
  | none => none
  | some true => some r1
  | some false =>
    match r1.res with
    | none => none
    | some res =>
      some { r1 with err := some ("http: invalid status code " ++ toString res.statusCode) }

/-- One terminal accessor call. The JSON accessor carries only the decode
error outcome: the builder state it leaves does not depend on the decoded
value (proved below). -/
inductive AccessorCall where
  | resp
  | respBytes
  | respString
  | respJSON (decode : Bytes → Option String)
  | valStatus (statusCodes : List Int)

/-- The builder state after one accessor call; for a call that panics, the
state at the moment of the panic (execution stops there, so any property of
the states along a call sequence holds a fortiori for the truncated run). -/
def applyAccessor (t : Transport) (c : AccessorCall) (r : Qrequest) : Qrequest :=
  match c with
  | .resp => (r.Response t).1
  | .respBytes => (r.ResponseBytes t).1
  | .respString => (r.ResponseString t).1
  | .respJSON decode =>
    (Qrequest.ResponseJSON t (fun b => (((), decode b) : Unit × Option String)) r).1
  | .valStatus codes =>
    match r.ValidateStatusCode t codes with
    | some r1 => r1
    | none => (r.response t).1

/-- The builder state after a sequence of accessor calls. -/
def applyCalls (t : Transport) (cs : List AccessorCall) (r : Qrequest) : Qrequest :=
  match cs with
  | [] => r
  | c :: cs => applyCalls t cs (applyAccessor t c r)

/-- A transport that always succeeds with status 200 and a one-byte body. -/
def tOk : Transport := fun _ => Except.ok { statusCode := 200, body := [49] }

/-- A transport that always fails with a connection error. -/
def tFail : Transport := fun _ => Except.error "connection refused"

/-- An already-dispatched builder with a cached one-byte buffer and a cached
200 response. -/
def q1 : Qrequest :=
  { mkQrequest .GET with
      isBodyClosed := true
      Buffer := some [49]
      res := some { statusCode := 200, body := [49] } }

/-- A fresh POST builder whose Parameters call hit a JSON marshaling
failure, leaving a sticky encoding error and no body. -/
def qPostErr : Qrequest :=
  (mkQrequest .POST).Parameters (ParamData.other (Except.error "json: unsupported type"))

/-- A dispatched builder with a cached 204 response. -/
def q5 : Qrequest :=
  { mkQrequest .GET with
      isBodyClosed := true
      Buffer := some []
      res := some { statusCode := 204, body := [] } }

/-- A dispatched builder with a cached 500 response. -/
def q5bad : Qrequest :=
  { mkQrequest .GET with
      isBodyClosed := true
      Buffer := some []
      res := some { statusCode := 500, body := [] } }

/-- A dispatched builder with a cached buffer holding the bytes of "not". -/
def q8 : Qrequest :=
  { mkQrequest .GET with
      isBodyClosed := true
      Buffer := some [110, 111, 116]
      res := some { statusCode := 200, body := [110, 111, 116] } }

/-- A fresh POST builder with an explicitly set Content-Type header. -/
def qCT : Qrequest :=
  { mkQrequest .POST with Header := [("Content-Type", "application/json")] }

/-- A JSON decode outcome that always fails, as json.Unmarshal does on
non-JSON input: the map stays empty and a decode error is returned. -/
def decodeFail : Bytes → (List (String × Int)) × Option String :=
  fun _ => ([], some "invalid character")

example : ((mkQrequest .GET).Response (fun _ => .ok ⟨200, [49]⟩)).2.payload = some [49] := by
  rfl

example : ((mkQrequest .GET).ResponseBytes (fun _ => .error "boom")).2 = none := by
  rfl

/-- On a builder that already dispatched or carries a sticky error,
`response` returns the cached buffer and the sticky error and leaves the
state untouched. -/
theorem response_sent_eq (t : Transport) (r : Qrequest)
    (h : r.isBodyClosed = true ∨ r.err.isSome = true) :
    r.response t = (r, (r.Buffer, r.err)) := by
  unfold Qrequest.response
  cases herr : r.err with
  | some e => simp [herr]
  | none =>
    rcases h with hcl | hs
    · simp [herr, hcl]
    · rw [herr] at hs
      simp at hs

/-- `Do` preserves the dispatch mark and the sticky error and increments the
ghost dispatch counter by exactly one. -/
theorem do_state (t : Transport) (r : Qrequest) :
    (r.Do t).1.isBodyClosed = r.isBodyClosed
    ∧ (r.Do t).1.dispatchCount = r.dispatchCount + 1
    ∧ (r.Do t).1.err = r.err := by
  unfold Qrequest.Do
  dsimp only
  split <;> simp

/-- After any `response` call the builder is dispatch-marked or carries a
sticky error, and the ghost counter grew by at most one. -/
theorem response_state (t : Transport) (r : Qrequest) :
    ((r.response t).1.isBodyClosed = true ∨ (r.response t).1.err.isSome = true)
    ∧ (r.response t).1.dispatchCount ≤ r.dispatchCount + 1 := by
  unfold Qrequest.response
  cases herr : r.err with
  | some e => simp [herr]
  | none =>
    cases hcl : r.isBodyClosed with
    | true => simp [herr, hcl]
    | false =>
      simp only [herr, hcl, Option.isSome_none, Bool.false_eq_true, if_false]
      refine ⟨Or.inl ?_, ?_⟩
      · rw [(do_state t _).1]
      · rw [(do_state t _).2.1]

/-- The state left by `Response` is the state `response` leaves. -/
theorem response_accessor_state (t : Transport) (r : Qrequest) :
    (r.Response t).1 = (r.response t).1 := rfl

/-- The state left by `ResponseBytes` is the state `response` leaves. -/
theorem responseBytes_state (t : Transport) (r : Qrequest) :
    (r.ResponseBytes t).1 = (r.response t).1 := by
  unfold Qrequest.ResponseBytes
  cases h : (r.response t).2.1 <;> simp [h]

/-- The state left by `ResponseString` is the state `response` leaves. -/
theorem responseString_state (t : Transport) (r : Qrequest) :
    (r.ResponseString t).1 = (r.response t).1 := by
  unfold Qrequest.ResponseString
  cases h : (r.response t).2.1 <;> simp [h]

/-- The state left by `ResponseJSON` is the state `response` leaves: in
particular it does not depend on the decode outcome. -/
theorem responseJSON_state {J : Type} (t : Transport) (decode : Bytes → J × Option String)
    (r : Qrequest) : (Qrequest.ResponseJSON t decode r).1 = (r.response t).1 := by
  unfold Qrequest.ResponseJSON
  cases h2 : (r.response t).2.2 with
  | some e => simp [h2]
  | none => cases h1 : (r.response t).2.1 <;> simp [h2, h1]

/-- When `ValidateStatusCode` returns (does not panic), the state it leaves
is the post-`response` state, possibly with the sticky error overwritten by
a validation error. -/
theorem validateStatusCode_cases (t : Transport) (codes : List Int) (r r2 : Qrequest)
    (h : r.ValidateStatusCode t codes = some r2) :
    r2 = (r.response t).1
    ∨ ∃ s, r2 = { (r.response t).1 with err := some s } := by
  unfold Qrequest.ValidateStatusCode at h
  dsimp only at h
  split at h
  · exact absurd h (by simp)
  · left
    exact (Option.some.inj h).symm
  · split at h
    · exact absurd h (by simp)
    · right
      exact ⟨_, (Option.some.inj h).symm⟩

/-- The state after any single accessor call is the post-`response` state,
possibly with the sticky error overwritten by a validation error. -/
theorem applyAccessor_cases (t : Transport) (c : AccessorCall) (r : Qrequest) :
    applyAccessor t c r = (r.response t).1
    ∨ ∃ s, applyAccessor t c r = { (r.response t).1 with err := some s } := by
  cases c with
  | resp => exact Or.inl (response_accessor_state t r)
  | respBytes => exact Or.inl (responseBytes_state t r)
  | respString => exact Or.inl (responseString_state t r)
  | respJSON decode => exact Or.inl (responseJSON_state t _ r)
  | valStatus codes =>
    dsimp only [applyAccessor]
    cases h : r.ValidateStatusCode t codes with
    | none => exact Or.inl rfl
    | some r2 => exact validateStatusCode_cases t codes r r2 h

/-- After any single accessor call the builder is dispatch-marked or carries
a sticky error. -/
theorem applyAccessor_sent (t : Transport) (c : AccessorCall) (r : Qrequest) :
    (applyAccessor t c r).isBodyClosed = true ∨ (applyAccessor t c r).err.isSome = true := by
  rcases applyAccessor_cases t c r with h | ⟨s, h⟩
  · rw [h]
    exact (response_state t r).1
  · right
    rw [h]
    rfl

/-- A single accessor call performs at most one dispatch. -/
theorem applyAccessor_count (t : Transport) (c : AccessorCall) (r : Qrequest) :
    (applyAccessor t c r).dispatchCount ≤ r.dispatchCount + 1 := by
  rcases applyAccessor_cases t c r with h | ⟨s, h⟩ <;> rw [h] <;>
    simpa using (response_state t r).2

/-- An accessor call on a dispatch-marked or sticky-error builder performs
no dispatch at all. -/
theorem applyAccessor_count_sent (t : Transport) (c : AccessorCall) (r : Qrequest)
    (hs : r.isBodyClosed = true ∨ r.err.isSome = true) :
    (applyAccessor t c r).dispatchCount = r.dispatchCount := by
  have h1 : (r.response t).1 = r := by rw [response_sent_eq t r hs]
  rcases applyAccessor_cases t c r with h | ⟨s, h⟩ <;> rw [h] <;> rw [h1]

/-- No sequence of accessor calls on a dispatch-marked or sticky-error
builder ever dispatches, and such states stay dispatch-marked or sticky. -/
theorem applyCalls_sent (t : Transport) (cs : List AccessorCall) (r : Qrequest)
    (hs : r.isBodyClosed = true ∨ r.err.isSome = true) :
    (applyCalls t cs r).dispatchCount = r.dispatchCount
    ∧ ((applyCalls t cs r).isBodyClosed = true ∨ (applyCalls t cs r).err.isSome = true) := by
  induction cs generalizing r with
  | nil => exact ⟨rfl, hs⟩
  | cons c cs ih =>
    have h1 := applyAccessor_count_sent t c r hs
    have h2 := applyAccessor_sent t c r
    have h3 := ih (applyAccessor t c r) h2
    exact ⟨by rw [applyCalls, h3.1, h1], h3.2⟩

/-- C1: dispatch occurs at most once per builder instance. Across any
sequence of terminal accessor calls (Response, ResponseBytes,
ResponseString, ResponseJSON, ValidateStatusCode) the transport is invoked
at most once, whatever the transport does (in particular even when the
dispatch fails); and once the first dispatch has been triggered
(isBodyClosed holds), every further accessor call returns the cached
outcome, the stored buffer and sticky error, and performs no dispatch. -/
theorem dispatch_at_most_once (t : Transport) (r : Qrequest) (cs : List AccessorCall) :
    (applyCalls t cs r).dispatchCount ≤ r.dispatchCount + 1
    ∧ (r.isBodyClosed = true →
        r.response t = (r, (r.Buffer, r.err))
        ∧ ∀ c, (applyAccessor t c r).dispatchCount = r.dispatchCount) := by
  constructor
  · cases cs with
    | nil => exact Nat.le_succ _
    | cons c cs =>
      have hsent := applyAccessor_sent t c r
      have hcount := (applyCalls_sent t cs (applyAccessor t c r) hsent).1
      rw [applyCalls, hcount]
      exact applyAccessor_count t c r
  · intro hcl
    exact ⟨response_sent_eq t r (Or.inl hcl),
           fun c => applyAccessor_count_sent t c r (Or.inl hcl)⟩

/-- Witness for dispatch_at_most_once at a concrete transport, builder and
call sequence. -/
theorem dispatch_at_most_once_witness :
    (applyCalls tOk [AccessorCall.resp, AccessorCall.respBytes] q1).dispatchCount
      ≤ q1.dispatchCount + 1
    ∧ q1.response tOk = (q1, (q1.Buffer, q1.err))
    ∧ (applyAccessor tOk AccessorCall.resp q1).dispatchCount = q1.dispatchCount :=
  ⟨(dispatch_at_most_once tOk q1 [AccessorCall.resp, AccessorCall.respBytes]).1,
   ((dispatch_at_most_once tOk q1 []).2 rfl).1,
   ((dispatch_at_most_once tOk q1 []).2 rfl).2 AccessorCall.resp⟩

/-- On a first dispatch against a transport that always fails, `response`
returns a nil buffer paired with the transport error, while the builder
stores neither the error nor any response or buffer: only the dispatch mark
is set. -/
theorem response_fail (t : Transport) (e : String) (r : Qrequest)
    (ht : ∀ req, t req = Except.error e)
    (herr : r.err = none) (hcl : r.isBodyClosed = false) :
    (r.response t).2 = (none, some e)
    ∧ (r.response t).1.err = none
    ∧ (r.response t).1.Buffer = r.Buffer
    ∧ (r.response t).1.res = r.res
    ∧ (r.response t).1.isBodyClosed = true := by
  unfold Qrequest.response Qrequest.Do
  simp [herr, hcl, ht]

/-- C2 counterexample: with a transport failing with "connection refused",
the first Response call delivers that error, but a second Response call on
the same builder delivers no error at all, because the transport error is
never stored in the builder. -/
theorem transport_error_not_redelivered :
    ((mkQrequest .GET).Response tFail).2.err = some "connection refused"
    ∧ (((mkQrequest .GET).Response tFail).1.Response tFail).2.err = none := by
  exact ⟨rfl, rfl⟩

/-- C2 (amended): when dispatch fails with a transport error, the first
Response and ResponseJSON calls deliver exactly that error with no body to
their callbacks, and the first ResponseString call delivers that error
together with the string "<nil>" (the nil-check result of Buffer.String);
ResponseBytes instead dereferences the nil buffer (panic) before reaching
its callback; and the error is not redelivered afterwards: the builder
keeps no sticky error, so a second Response call returns a nil buffer and
no error. -/
theorem transport_error_delivery (t : Transport) (e : String) (r : Qrequest)
    (ht : ∀ req, t req = Except.error e)
    (herr : r.err = none) (hcl : r.isBodyClosed = false) (hbuf : r.Buffer = none) :
    ((r.Response t).2.err = some e ∧ (r.Response t).2.payload = none)
    ∧ (∀ (J : Type) (decode : Bytes → J × Option String),
        ∃ out, (Qrequest.ResponseJSON t decode r).2 = some out
          ∧ out.err = some e ∧ out.payload = none)
    ∧ (r.ResponseBytes t).2 = none
    ∧ ((r.ResponseString t).2.err = some e
       ∧ (r.ResponseString t).2.payload = strBytes "<nil>")
    ∧ (r.Response t).1.err = none
    ∧ ((r.Response t).1.Response t).2.err = none
    ∧ ((r.Response t).1.Response t).2.payload = none := by
  have hf := response_fail t e r ht herr hcl
  have h2 := response_sent_eq t (r.response t).1 (Or.inl hf.2.2.2.2)
  refine ⟨⟨?_, ?_⟩, ?_, ?_, ?_, hf.2.1, ?_, ?_⟩
  · show (r.response t).2.2 = some e
    rw [hf.1]
  · show (r.response t).2.1 = none
    rw [hf.1]
  · intro J decode
    refine ⟨{ req := (r.response t).1.req, res := (r.response t).1.res,
              payload := (none : Option J), err := some e }, ?_, rfl, rfl⟩
    unfold Qrequest.ResponseJSON
    simp [hf.1]
  · unfold Qrequest.ResponseBytes
    simp [hf.1]
  · constructor <;> (unfold Qrequest.ResponseString; simp [hf.1])
  · show ((r.response t).1.response t).2.2 = none
    rw [h2]
    exact hf.2.1
  · show ((r.response t).1.response t).2.1 = none
    rw [h2]
    rw [hf.2.2.1, hbuf]

/-- Witness for transport_error_delivery on a fresh POST builder and the
always-failing transport. -/
theorem transport_error_delivery_witness :
    (((mkQrequest .POST).Response tFail).2.err = some "connection refused"
      ∧ ((mkQrequest .POST).Response tFail).2.payload = none)
    ∧ ((mkQrequest .POST).ResponseBytes tFail).2 = none :=
  ⟨(transport_error_delivery tFail "connection refused" (mkQrequest .POST)
      (fun _ => rfl) rfl rfl rfl).1,
   (transport_error_delivery tFail "connection refused" (mkQrequest .POST)
      (fun _ => rfl) rfl rfl rfl).2.2.1⟩

/-- C3: for builders whose method encodes parameters in the URL (GET, HEAD,
DELETE), Parameters is a no-op: the body, the length and the sticky error
are all unchanged by the call, whatever the input. -/
theorem parameters_noop_for_url_methods (r : Qrequest) (data : ParamData)
    (h : encodesParametersInURL r.Method = true) :
    (r.Parameters data).Body = r.Body
    ∧ (r.Parameters data).Length = r.Length
    ∧ (r.Parameters data).err = r.err := by
  have hr : r.Parameters data = r := by
    unfold Qrequest.Parameters
    simp [h]
  rw [hr]
  exact ⟨rfl, rfl, rfl⟩

/-- Witness for parameters_noop_for_url_methods on a GET builder and a raw
string input. -/
theorem parameters_noop_witness :
    ((mkQrequest .GET).Parameters (ParamData.str "a=1")).Body = (mkQrequest .GET).Body
    ∧ ((mkQrequest .GET).Parameters (ParamData.str "a=1")).Length = (mkQrequest .GET).Length
    ∧ ((mkQrequest .GET).Parameters (ParamData.str "a=1")).err = (mkQrequest .GET).err :=
  parameters_noop_for_url_methods (mkQrequest .GET) (ParamData.str "a=1") rfl

/-- C9 counterexample: ResponseString is total on the transport-failure
path: Buffer.String nil-checks a nil receiver and returns "<nil>", so the
callback is reached and receives the transport error together with that
string, rather than the call panicking on the nil buffer. -/
theorem responseString_total_on_transport_failure :
    ((mkQrequest .PUT).ResponseString tFail).2.err = some "connection refused"
    ∧ ((mkQrequest .PUT).ResponseString tFail).2.payload = strBytes "<nil>" := by
  exact ⟨rfl, rfl⟩

/-- C9 (amended): on the transport-failure path, Do returns a nil buffer,
and ResponseBytes calls Bytes on that nil buffer (a nil-pointer panic,
modelled as none) instead of reaching its callback: ResponseBytes is not
total on this path. ResponseString, by contrast, is total there, because
Buffer.String nil-checks and returns "<nil>". -/
theorem accessors_panic_on_transport_failure :
    ((mkQrequest .PUT).Do tFail).2.1 = none
    ∧ ((mkQrequest .PUT).ResponseBytes tFail).2 = none := by
  exact ⟨rfl, rfl⟩

/-- C10: ValidateStatusCode on a builder whose dispatch failed (no response
was ever cached) reads the status code of the nil response: a nil-pointer
panic, modelled as none. The same happens when a sticky error prevented
dispatch entirely. -/
theorem validate_panics_without_response :
    (mkQrequest .PATCH).ValidateStatusCode tFail [] = none
    ∧ (mkQrequest .PATCH).ValidateStatusCode tFail [200] = none
    ∧ ({ mkQrequest .PATCH with err := some "x" }).ValidateStatusCode tOk [] = none := by
  exact ⟨rfl, rfl, rfl⟩

/-- C4 counterexample: a sticky encoding error from a failed JSON marshal is
not reported to a subsequent ResponseBytes call: with no buffer cached, the
call panics on the nil buffer before ever invoking its callback. -/
theorem encoding_error_not_reported_to_bytes :
    qPostErr.err = some "json: unsupported type"
    ∧ (qPostErr.ResponseBytes tOk).2 = none := by
  exact ⟨rfl, rfl⟩

/-- C4 (amended): for a body-carrying method and an input in the default
JSON branch: a marshaling failure stores the error as the sticky error and
leaves the body and length fields unchanged (body unset), and that sticky
error is then delivered to the callback of every future Response,
ResponseJSON and ResponseString call (the first two with no body, the last
with the string "<nil>" from Buffer.String on the nil buffer), each call
leaving the builder unchanged (so the same holds for all later calls);
ResponseBytes instead panics on the nil buffer before reaching its
callback. A marshaling success sets the body to the JSON bytes and the
length to their byte count. -/
theorem parameters_marshal_outcome (r : Qrequest)
    (h : encodesParametersInURL r.Method = false) :
    (∀ e, r.Parameters (ParamData.other (Except.error e)) = { r with err := some e })
    ∧ (∀ b, r.Parameters (ParamData.other (Except.ok b))
          = { r with Body := some b, Length := (b.length : Int) })
    ∧ (∀ (t : Transport) (r1 : Qrequest) e, r1.err = some e → r1.Buffer = none →
        ((r1.Response t).1 = r1 ∧ (r1.Response t).2.err = some e
          ∧ (r1.Response t).2.payload = none)
        ∧ (∀ (J : Type) (decode : Bytes → J × Option String),
            (Qrequest.ResponseJSON t decode r1).1 = r1
            ∧ ∃ out, (Qrequest.ResponseJSON t decode r1).2 = some out
                ∧ out.err = some e ∧ out.payload = none)
        ∧ (r1.ResponseBytes t).2 = none
        ∧ ((r1.ResponseString t).1 = r1 ∧ (r1.ResponseString t).2.err = some e
           ∧ (r1.ResponseString t).2.payload = strBytes "<nil>")) := by
  refine ⟨?_, ?_, ?_⟩
  · intro e
    unfold Qrequest.Parameters
    simp [h]
  · intro b
    unfold Qrequest.Parameters Qrequest.setPackedBody packBodyByBytes
    simp [h]
  · intro t r1 e herr1 hbuf1
    have hsome : r1.err.isSome = true := by rw [herr1]; rfl
    have hse := response_sent_eq t r1 (Or.inr hsome)
    have h1 : (r1.response t).1 = r1 := by rw [hse]
    have h21 : (r1.response t).2.1 = none := by rw [hse, hbuf1]
    have h22 : (r1.response t).2.2 = some e := by rw [hse, herr1]
    refine ⟨⟨?_, ?_, ?_⟩, ?_, ?_, ?_⟩
    · exact h1
    · show (r1.response t).2.2 = some e
      exact h22
    · show (r1.response t).2.1 = none
      exact h21
    · intro J decode
      refine ⟨by rw [responseJSON_state, h1], ?_⟩
      refine ⟨{ req := r1.req, res := r1.res, payload := (none : Option J), err := some e },
              ?_, rfl, rfl⟩
      unfold Qrequest.ResponseJSON
      simp [h22, h1]
    · unfold Qrequest.ResponseBytes
      simp [h21]
    · refine ⟨?_, ?_, ?_⟩ <;> (unfold Qrequest.ResponseString; simp [h21, h22, h1])

/-- Witness for parameters_marshal_outcome on a fresh POST builder: a failed
marshal, a successful marshal of the bytes of "42", and the delivery of the
sticky error to a Response callback. -/
theorem parameters_marshal_outcome_witness :
    (mkQrequest .POST).Parameters (ParamData.other (Except.error "boom"))
        = { mkQrequest .POST with err := some "boom" }
    ∧ (mkQrequest .POST).Parameters (ParamData.other (Except.ok [52, 50]))
        = { mkQrequest .POST with Body := some [52, 50], Length := 2 }
    ∧ (qPostErr.Response tOk).2.err = some "json: unsupported type" :=
  ⟨(parameters_marshal_outcome (mkQrequest .POST) rfl).1 "boom",
   (parameters_marshal_outcome (mkQrequest .POST) rfl).2.1 [52, 50],
   ((parameters_marshal_outcome (mkQrequest .POST) rfl).2.2 tOk qPostErr
      "json: unsupported type" rfl rfl).1.2.1⟩

/-- With a cached response and a non-empty argument list, the status check
succeeds exactly when the status code is one of the arguments. -/
theorem validateStatusCode_nonempty (codes : List Int) (r : Qrequest) (resp : HttpResponse)
    (hres : r.res = some resp) (hne : codes ≠ []) :
    r.validateStatusCode codes = some (codes.contains resp.statusCode) := by
  unfold Qrequest.validateStatusCode
  rw [hres]
  have hlen : codes.length > 0 := List.length_pos.mpr hne
  simp [hlen]

/-- With a cached response and no arguments, the status check succeeds
exactly when the status code lies in [200, 300). -/
theorem validateStatusCode_empty (r : Qrequest) (resp : HttpResponse)
    (hres : r.res = some resp) :
    r.validateStatusCode [] = some (decide (200 ≤ resp.statusCode ∧ resp.statusCode < 300)) := by
  unfold Qrequest.validateStatusCode
  rw [hres]
  by_cases h : 200 ≤ resp.statusCode ∧ resp.statusCode < 300 <;> simp [h]

/-- C5: on a builder with a dispatched (cached) response, ValidateStatusCode
with a non-empty argument list succeeds exactly when the status code equals
one of the given codes, and with an empty list exactly when the code is at
least 200 and strictly below 300; on success the builder is unchanged, on
failure its sticky error is set to a descriptive message naming the
offending status code. -/
theorem validate_status_code_spec (t : Transport) (codes : List Int) (r : Qrequest)
    (resp : HttpResponse) (hres : r.res = some resp) (hcl : r.isBodyClosed = true) :
    (codes ≠ [] →
      r.ValidateStatusCode t codes =
        some (if codes.contains resp.statusCode then r
              else { r with err := some ("http: invalid status code "
                        ++ toString resp.statusCode) }))
    ∧ (codes = [] →
      r.ValidateStatusCode t codes =
        some (if 200 ≤ resp.statusCode ∧ resp.statusCode < 300 then r
              else { r with err := some ("http: invalid status code "
                        ++ toString resp.statusCode) })) := by
  have hse := response_sent_eq t r (Or.inl hcl)
  have h1 : (r.response t).1 = r := by rw [hse]
  constructor
  · intro hne
    have hv := validateStatusCode_nonempty codes r resp hres hne
    simp only [Qrequest.ValidateStatusCode, h1, hv]
    cases hc : codes.contains resp.statusCode with
    | true => simp
    | false => simp [hres]
  · intro hemp
    subst hemp
    have hv := validateStatusCode_empty r resp hres
    simp only [Qrequest.ValidateStatusCode, h1, hv]
    by_cases hc : 200 ≤ resp.statusCode ∧ resp.statusCode < 300
    · simp [hc]
    · simp [hc, hres]

/-- Witness for validate_status_code_spec: a 204 response passes the check
against [201, 204] and against the default range, and a 500 response fails
the default range and records the descriptive error. -/
theorem validate_status_code_witness :
    q5.ValidateStatusCode tOk [201, 204] = some q5
    ∧ q5.ValidateStatusCode tOk [] = some q5
    ∧ q5bad.ValidateStatusCode tOk []
        = some { q5bad with err := some "http: invalid status code 500" } := by
  refine ⟨?_, ?_, ?_⟩
  · have h := (validate_status_code_spec tOk [201, 204] q5
      { statusCode := 204, body := [] } rfl rfl).1 (by decide)
    rw [h]
    rfl
  · have h := (validate_status_code_spec tOk [] q5
      { statusCode := 204, body := [] } rfl rfl).2 rfl
    rw [h]
    rfl
  · have h := (validate_status_code_spec tOk [] q5bad
      { statusCode := 500, body := [] } rfl rfl).2 rfl
    rw [h]
    rfl

/-- Setting a header key stores exactly the given value for that key. -/
theorem headerGet_headerSet (h : Header) (k v : String) :
    headerGet (headerSet h k v) k = v := by
  simp [headerGet, headerSet, List.find?]

/-- The uppercase form of a non-empty string is non-empty. -/
theorem goToUpper_ne_empty (s : String) (h : s ≠ "") : goToUpper s ≠ "" := by
  intro hu
  apply h
  cases s with
  | mk data =>
    cases data with
    | nil => rfl
    | cons c cs =>
      exfalso
      have h2 := congrArg (fun x => x.data.length) hu
      simp [goToUpper] at h2

/-- C6 counterexample: Encoding "text/html" stores the uppercased name
"TEXT/HTML" in the Content-Type header, not the given name. -/
theorem encoding_uppercases_name :
    headerGet ((mkQrequest .POST).Encoding "text/html").Header "Content-Type" = "TEXT/HTML"
    ∧ ("TEXT/HTML" : String) ≠ "text/html" := by
  exact ⟨rfl, by decide⟩

/-- C6 (amended): Encoding with the empty name is a no-op on the builder; a
name whose uppercase form is the token "JSON" (so "json" in any case) sets
Content-Type to "application/json"; any other non-empty name sets
Content-Type to the uppercase form of the given name. -/
theorem encoding_spec (name : String) (r : Qrequest) :
    (name = "" → r.Encoding name = r)
    ∧ (goToUpper name = "JSON" →
        headerGet (r.Encoding name).Header "Content-Type" = "application/json")
    ∧ (goToUpper name ≠ "JSON" → name ≠ "" →
        headerGet (r.Encoding name).Header "Content-Type" = goToUpper name) := by
  refine ⟨?_, ?_, ?_⟩
  · intro h
    rw [h]
    rfl
  · intro h
    have hx : ("application/json" : String) ≠ "" := by decide
    unfold Qrequest.Encoding
    simp [h, hx, headerGet_headerSet]
  · intro hj hne
    have hne2 := goToUpper_ne_empty name hne
    unfold Qrequest.Encoding
    simp [hj, hne2, headerGet_headerSet]

/-- Witness for encoding_spec: the empty name, "json" in lower case, and a
plain media type. -/
theorem encoding_spec_witness :
    (mkQrequest .PUT).Encoding "" = mkQrequest .PUT
    ∧ headerGet ((mkQrequest .PUT).Encoding "json").Header "Content-Type" = "application/json"
    ∧ headerGet ((mkQrequest .PUT).Encoding "text/plain").Header "Content-Type"
        = goToUpper "text/plain" :=
  ⟨(encoding_spec "" (mkQrequest .PUT)).1 rfl,
   (encoding_spec "json" (mkQrequest .PUT)).2.1 rfl,
   (encoding_spec "text/plain" (mkQrequest .PUT)).2.2 (by decide) (by decide)⟩

/-- The request Do builds, dispatches, and stores in the req field. -/
theorem do_req (t : Transport) (r : Qrequest) :
    (r.Do t).1.req = some
      { method := r.Method.str,
        header := if headerGet r.Header "Content-Type" = "" then
            headerSet r.Header "Content-Type" "application/x-www-form-urlencoded"
          else r.Header,
        body := r.Body,
        contentLength := match r.Body with | some _ => r.Length | none => 0 } := by
  unfold Qrequest.Do
  dsimp only
  split <;> rfl

/-- C7: the request Do builds and dispatches carries the Content-Type header
"application/x-www-form-urlencoded" when none was set on the builder, and
carries the previously set value unchanged otherwise. -/
theorem do_content_type (t : Transport) (r : Qrequest) :
    (headerGet r.Header "Content-Type" = "" →
      ∃ req, (r.Do t).1.req = some req
        ∧ headerGet req.header "Content-Type" = "application/x-www-form-urlencoded")
    ∧ (∀ v, v ≠ "" → headerGet r.Header "Content-Type" = v →
      ∃ req, (r.Do t).1.req = some req ∧ headerGet req.header "Content-Type" = v) := by
  constructor
  · intro h0
    refine ⟨_, do_req t r, ?_⟩
    simp [h0, headerGet_headerSet]
  · intro v hv hval
    refine ⟨_, do_req t r, ?_⟩
    rw [hval]
    simp [hv, hval]

/-- Witness for do_content_type: a builder with no Content-Type header gets
the form-urlencoded default; a builder with an explicit header keeps it. -/
theorem do_content_type_witness :
    (∃ req, ((mkQrequest .POST).Do tOk).1.req = some req
      ∧ headerGet req.header "Content-Type" = "application/x-www-form-urlencoded")
    ∧ (∃ req, (qCT.Do tOk).1.req = some req
      ∧ headerGet req.header "Content-Type" = "application/json") :=
  ⟨(do_content_type tOk (mkQrequest .POST)).1 rfl,
   (do_content_type tOk qCT).2 "application/json" (by decide) rfl⟩

/-- C8: on a builder whose dispatch succeeded with a buffered body, the JSON
decode outcome is local to the ResponseJSON call: the callback receives the
decoded map together with the decode error (if any), the builder state and
in particular its sticky error are unchanged, and a later ResponseBytes
call still delivers the raw buffered bytes with no error. -/
theorem json_decode_error_is_local {J : Type} (t : Transport)
    (decode : Bytes → J × Option String) (r : Qrequest) (b : Bytes)
    (herr : r.err = none) (hcl : r.isBodyClosed = true) (hbuf : r.Buffer = some b) :
    (Qrequest.ResponseJSON t decode r).1 = r
    ∧ (Qrequest.ResponseJSON t decode r).2
        = some { req := r.req, res := r.res, payload := some (decode b).1,
                 err := (decode b).2 }
    ∧ (r.ResponseBytes t).1 = r
    ∧ (r.ResponseBytes t).2
        = some { req := r.req, res := r.res, payload := b, err := none } := by
  have hse := response_sent_eq t r (Or.inl hcl)
  have h1 : (r.response t).1 = r := by rw [hse]
  have h21 : (r.response t).2.1 = some b := by rw [hse, hbuf]
  have h22 : (r.response t).2.2 = none := by rw [hse, herr]
  refine ⟨?_, ?_, ?_, ?_⟩
  · rw [responseJSON_state, h1]
  · unfold Qrequest.ResponseJSON
    simp [h22, h21, h1]
  · rw [responseBytes_state, h1]
  · unfold Qrequest.ResponseBytes
    simp [h21, h22, h1]

/-- Witness for json_decode_error_is_local: a cached buffer holding the
bytes of "not" with an always-failing decode; the decode error reaches the
callback only, and the raw bytes remain available. -/
theorem json_decode_error_is_local_witness :
    (Qrequest.ResponseJSON tOk decodeFail q8).1 = q8
    ∧ (Qrequest.ResponseJSON tOk decodeFail q8).2
        = some { req := q8.req, res := q8.res, payload := some [],
                 err := some "invalid character" }
    ∧ (q8.ResponseBytes tOk).2
        = some { req := q8.req, res := q8.res, payload := [110, 111, 116], err := none } :=
  ⟨(json_decode_error_is_local tOk decodeFail q8 [110, 111, 116] rfl rfl rfl).1,
   (json_decode_error_is_local tOk decodeFail q8 [110, 111, 116] rfl rfl rfl).2.1,
   (json_decode_error_is_local tOk decodeFail q8 [110, 111, 116] rfl rfl rfl).2.2.2⟩
